import Mathlib

/-!
Verification of the fotografiasapp event-photo management tool.

The JavaScript modules are shallowly embedded as pure Lean functions:

* `src/unnamed/part_000` (categories.js, two revisions) — category creation,
  validation, and the round-robin colour palette; the module-level mutable
  `colorIndex` is threaded explicitly as a `Nat` argument and result.
* `src/unnamed/part_003` (photos.js) — photo upload objects and the
  multi-file processing loop; Firebase Storage is abstracted as a
  `StorageBackend` function from paths and files to an optional download URL
  (`none` models a thrown upload error).
* `src/js/reports.js` — Word report construction; the docx element tree is
  modelled by the inductive types `Cell`, `SectionChild` and `DocSection`
  that record exactly the structure the claims speak about, and `fetch`
  failures are modelled by a function `Photo → Option ArrayBuffer`.
* `src/js/events.js` and `src/unnamed/part_001` (report-manager.js /
  photo-manager.js) — the module-level mutable UI state records are made
  explicit state values, and each handler becomes a state-transition
  function.

JavaScript strings are modelled by Lean `String` viewed through its
character list; `jsTrim`, `jsToLower`, `jsToUpper`, `jsLength` and
`jsStartsWith` replay the corresponding `String.prototype` operations
character by character so that every definition evaluates inside the
kernel.  Fields holding wall-clock timestamps (`createdAt`, `uploadedAt`,
`fechaCreacion`) are not represented: no claim mentions them and real time
has no shallow embedding.  Fresh identifiers from `generateId()` are passed
in as explicit arguments.
-/

/-! ### JavaScript string operations -/

/-- Model of `String.prototype.trim`: drop leading and trailing whitespace
characters from the character list of the string. -/
def jsTrim (s : String) : String :=
  String.mk (((s.data.dropWhile Char.isWhitespace).reverse.dropWhile
    Char.isWhitespace).reverse)

/-- Model of `String.prototype.toLowerCase`, applied character by character. -/
def jsToLower (s : String) : String :=
  String.mk (s.data.map Char.toLower)

/-- Model of `String.prototype.toUpperCase`, applied character by character. -/
def jsToUpper (s : String) : String :=
  String.mk (s.data.map Char.toUpper)

/-- Model of the JavaScript `length` of a string. -/
def jsLength (s : String) : Nat :=
  s.data.length

/-- Model of `String.prototype.startsWith`. -/
def jsStartsWith (s pre : String) : Bool :=
  pre.data.isPrefixOf s.data

/-! ### Data model -/

/-- An entry of the predefined category catalogue (`CATALOG_CATEGORIES` in
categories.js). -/
structure CatalogCategory where
  nombre : String
  color : String
  icon : String
deriving Repr, DecidableEq

/-- A category record as built by `createCategory` in categories.js.  The
`icon` field is `null`-able in the source and is therefore an `Option`; the
`createdAt` timestamp is omitted (see the module docstring). -/
structure Category where
  id : String
  nombre : String
  color : String
  icon : Option String
  isCustom : Bool
deriving Repr, DecidableEq

/-- A photo record as built by `createPhotoObject` in photos.js (the
`uploadedAt` timestamp is omitted, see the module docstring). -/
structure Photo where
  id : String
  categoryId : String
  fileName : String
  fileSize : Nat
  fileType : String
  url : String
  storagePath : String
deriving Repr, DecidableEq

/-- An event document as read back from the `eventos` collection.  The
`categorias` and `fotos` arrays may be absent on a stored document — the
report code guards for exactly that — so both are `Option`s. -/
structure Event where
  id : String
  nombre : String
  responsableNombre : String
  categorias : Option (List Category)
  fotos : Option (List Photo)
deriving Repr, DecidableEq

/-- A browser `File` value: the fields of the web API object that the
photos module reads. -/
structure WebFile where
  name : String
  size : Nat
  type : String
deriving Repr, DecidableEq

/-- The `{valid, error}` record returned by `validateCategoryName`. -/
structure ValidationResult where
  valid : Bool
  error : Option String
deriving Repr, DecidableEq

/-! ### categories.js (src/unnamed/part_000, first revision) -/

/-- The predefined category catalogue `CATALOG_CATEGORIES`. -/
def CATALOG_CATEGORIES : List CatalogCategory :=
  [⟨"Hospedaje", "#3b82f6", "🏨"⟩,
   ⟨"Salones / Recintos", "#10b981", "🏛️"⟩,
   ⟨"A&B", "#f59e0b", "🍽️"⟩,
   ⟨"A/V", "#ef4444", "🎬"⟩,
   ⟨"Producción/Templetes/Alfombra", "#8b5cf6", "🎭"⟩,
   ⟨"Mobiliario", "#ec4899", "🪑"⟩,
   ⟨"Internet/Tecnología/Cómputo", "#06b6d4", "💻"⟩,
   ⟨"Interpretación", "#f97316", "🗣️"⟩,
   ⟨"Transporte", "#14b8a6", "🚐"⟩,
   ⟨"Seguridad", "#6366f1", "🛡️"⟩,
   ⟨"Arreglos Florales", "#84cc16", "💐"⟩,
   ⟨"Marketing (Mejores fotos)", "#a855f7", "📸"⟩]

/-- The eight-colour palette `ADDITIONAL_COLORS` used for custom categories. -/
def ADDITIONAL_COLORS : List String :=
  ["#0ea5e9", "#22c55e", "#eab308", "#f43f5e",
   "#a78bfa", "#fb923c", "#2dd4bf", "#818cf8"]

/-- The function `getNextColor`.  The module-level mutable `colorIndex` is
threaded explicitly: the result pairs the colour read at the current index
with the updated index `(colorIndex + 1) % ADDITIONAL_COLORS.length`. -/
def getNextColor (colorIndex : Nat) : String × Nat :=
  (ADDITIONAL_COLORS.getD colorIndex "",
   (colorIndex + 1) % ADDITIONAL_COLORS.length)

/-- The function `createCategory(nombre, color = null, icon = null)`.  The
fresh `generateId()` value is the explicit `newId` argument and the mutable
colour index is threaded through.  A thrown error becomes `Except.error`.
`isCustom: !color` makes the flag true exactly when no colour was passed,
in which case the colour comes from `getNextColor`. -/
def createCategory (newId : String) (nombre : String) (color : Option String)
    (icon : Option String) (colorIndex : Nat) : Except String (Category × Nat) :=
  if jsTrim nombre == "" then
    Except.error "El nombre de la categoria es requerido"
  else
    match color with
    | some c =>
        Except.ok ({ id := newId, nombre := jsTrim nombre, color := c,
                     icon := icon, isCustom := false }, colorIndex)
    | none =>
        let next := getNextColor colorIndex
        Except.ok ({ id := newId, nombre := jsTrim nombre, color := next.1,
                     icon := icon, isCustom := true }, next.2)

/-- The function `createCategoryFromCatalog`: look the name up in
`CATALOG_CATEGORIES` and delegate to `createCategory` with the catalogue
entry's colour and icon. -/
def createCategoryFromCatalog (newId : String) (nombre : String)
    (colorIndex : Nat) : Except String (Category × Nat) :=
  match CATALOG_CATEGORIES.find? (fun cat => cat.nombre == nombre) with
  | none => Except.error "Categoria no encontrada en el catalogo"
  | some catalogItem =>
      createCategory newId catalogItem.nombre (some catalogItem.color)
        (some catalogItem.icon) colorIndex

/-- Common body of the two source revisions of `validateCategoryName`,
which differ only in the maximum length (50 in the catalogue revision,
30 in the other) and the wording of that error message. -/
def validateCategoryNameWithMax (maxLen : Nat) (maxLenError : String)
    (nombre : String) (existingCategories : List Category) : ValidationResult :=
  if jsTrim nombre == "" then
    { valid := false, error := some "El nombre de la categoria no puede estar vacio" }
  else if jsLength (jsTrim nombre) < 2 then
    { valid := false, error := some "El nombre debe tener al menos 2 caracteres" }
  else if jsLength (jsTrim nombre) > maxLen then
    { valid := false, error := some maxLenError }
  else if existingCategories.any
      (fun cat => jsToLower cat.nombre == jsToLower (jsTrim nombre)) then
    { valid := false, error := some "Ya existe una categoria con este nombre" }
  else
    { valid := true, error := none }

/-- The function `validateCategoryName` of the catalogue revision of
categories.js: maximum length 50. -/
def validateCategoryName (nombre : String) (existingCategories : List Category) :
    ValidationResult :=
  validateCategoryNameWithMax 50 "El nombre no puede exceder 50 caracteres"
    nombre existingCategories

/-- The function `validateCategoryName` of the other revision of
categories.js: maximum length 30. -/
def validateCategoryNameLegacy (nombre : String)
    (existingCategories : List Category) : ValidationResult :=
  validateCategoryNameWithMax 30 "El nombre no puede exceder 30 caracteres"
    nombre existingCategories

/-- The function `removeCategoryFromEvent`: filter out the categories whose
id equals the given one. -/
def removeCategoryFromEvent (categories : List Category) (categoryId : String) :
    List Category :=
  categories.filter (fun cat => cat.id != categoryId)

/-! ### photos.js (src/unnamed/part_003) -/

/-- Abstraction of Firebase Storage: `upload path file` returns the
download URL on success and `none` when `uploadBytes`/`getDownloadURL`
throws. -/
structure StorageBackend where
  upload : String → WebFile → Option String

/-- The function `uploadPhotoToStorage`: build the storage reference path
`eventos/{eventId}/{photoId}.jpg` exactly as the source template literals
do, upload, and return the download URL; a backend failure re-throws. -/
def uploadPhotoToStorage (backend : StorageBackend) (file : WebFile)
    (eventId photoId : String) : Except String String :=
  let fileName := photoId ++ ".jpg"
  let storageRefPath := "eventos/" ++ eventId ++ "/" ++ fileName
  match backend.upload storageRefPath file with
  | some downloadURL => Except.ok downloadURL
  | none => Except.error "Error al subir foto a Storage"

/-- The function `createPhotoObject`.  `compress` models `compressImage`,
which never throws (it falls back to the original file), and `photoId` is
the explicit `generateId()` value.  A thrown upload error propagates as
`none`.  The `storagePath` field is rebuilt from a second, independent
template literal in the source, reproduced here verbatim. -/
def createPhotoObject (backend : StorageBackend) (compress : WebFile → WebFile)
    (photoId : String) (file : WebFile) (categoryId eventId : String) :
    Option Photo :=
  let compressedFile := compress file
  match uploadPhotoToStorage backend compressedFile eventId photoId with
  | Except.error _ => none
  | Except.ok downloadURL =>
      some { id := photoId,
             categoryId := categoryId,
             fileName := file.name,
             fileSize := compressedFile.size,
             fileType := compressedFile.type,
             url := downloadURL,
             storagePath := "eventos/" ++ eventId ++ "/" ++ photoId ++ ".jpg" }

/-- The loop of `processMultipleFiles`: skip files whose MIME type does not
start with `image/`, try `createPhotoObject` on the rest, and on a thrown
error continue with the remaining files.  `genId` supplies the fresh
`generateId()` value used for each file; the `onProgress` callback only
drives UI messages and is not modelled. -/
def processMultipleFiles (backend : StorageBackend) (compress : WebFile → WebFile)
    (genId : WebFile → String) (categoryId eventId : String) :
    List WebFile → List Photo
  | [] => []
  | file :: rest =>
      if jsStartsWith file.type "image/" then
        match createPhotoObject backend compress (genId file) file categoryId eventId with
        | some photo =>
            photo :: processMultipleFiles backend compress genId categoryId eventId rest
        | none => processMultipleFiles backend compress genId categoryId eventId rest
      else
        processMultipleFiles backend compress genId categoryId eventId rest

/-- The function `filterPhotosByCategory` (the `!photos` guard is the
caller's concern here: a missing array is handled before this point). -/
def filterPhotosByCategory (photos : List Photo) (categoryId : String) :
    List Photo :=
  photos.filter (fun photo => photo.categoryId == categoryId)

/-! ### reports.js (src/js/reports.js) -/

/-- An downloaded image body; its bytes are irrelevant to every claim, so an
abstract token stands in for the `ArrayBuffer`. -/
abbrev ImageBuffer := Nat

/-- Membership test of the `imageBuffers` JavaScript `Map`, modelled as an
association list in insertion order. -/
def mapHas (m : List (String × ImageBuffer)) (key : String) : Bool :=
  m.any (fun entry => entry.1 == key)

/-- The loop of `downloadAllImages`: fetch each photo's URL, record the
buffer under the photo id, and on a thrown fetch error log and continue.
`fetch` abstracts the network: `none` models a failed download. -/
def downloadAllImages (fetch : Photo → Option ImageBuffer) :
    List Photo → List (String × ImageBuffer)
  | [] => []
  | photo :: rest =>
      match fetch photo with
      | some buffer => (photo.id, buffer) :: downloadAllImages fetch rest
      | none => downloadAllImages fetch rest

/-- A cell of one row of the category photo grid: either an `ImageRun` cell
holding the image of a given photo id, or the explicit empty filler cell. -/
inductive Cell where
  | image (photoId : String)
  | emptyCell
deriving Repr, DecidableEq

/-- One child of a category section: the title paragraph, a one-row photo
table, or the empty spacing paragraph pushed after each table. -/
inductive SectionChild where
  | title (text : String)
  | photoTable (cells : List Cell)
  | spacer
deriving Repr, DecidableEq

/-- The cell list built for one grid row of `createCategorySection` from
`photo1 = photos[i]`, `photo2 = photos[i+1]`, `photo3 = photos[i+2]`.
Because the loop guard gives `i < photos.length`, `photo1` always exists,
so the source's `else if (photo1)` and `else if (photo1 || photo2)` filler
branches are always reachable; `photo1` itself gets no filler branch. -/
def rowCells (imageBuffers : List (String × ImageBuffer)) (photo1 : Photo)
    (photo2 photo3 : Option Photo) : List Cell :=
  (if mapHas imageBuffers photo1.id then [Cell.image photo1.id] else [])
  ++ (match photo2 with
      | some p => if mapHas imageBuffers p.id then [Cell.image p.id]
                  else [Cell.emptyCell]
      | none => [Cell.emptyCell])
  ++ (match photo3 with
      | some p => if mapHas imageBuffers p.id then [Cell.image p.id]
                  else [Cell.emptyCell]
      | none => [Cell.emptyCell])

/-- The stride-3 loop header `for (let i = 0; i < photos.length; i += 3)`:
group the photo list into the `(photos[i], photos[i+1], photos[i+2])`
triples visited by the loop. -/
def photoRows : List Photo → List (Photo × Option Photo × Option Photo)
  | [] => []
  | [a] => [(a, none, none)]
  | [a, b] => [(a, some b, none)]
  | a :: b :: c :: rest => (a, some b, some c) :: photoRows rest

/-- The function `createCategorySection`, reduced to the child list the
claims are about (headers, footers and page margins carry no photo data):
the upper-cased title paragraph, then per grid row one table and one
spacing paragraph. -/
def createCategorySection (category : Category) (photos : List Photo)
    (imageBuffers : List (String × ImageBuffer)) : List SectionChild :=
  SectionChild.title (jsToUpper category.nombre) ::
    (photoRows photos).flatMap (fun row =>
      [SectionChild.photoTable (rowCells imageBuffers row.1 row.2.1 row.2.2),
       SectionChild.spacer])

/-- A section of the generated Word document: the cover section pushed
first, or one category section. -/
inductive DocSection where
  | cover (eventName responsableNombre : String) (totalFotos : Nat)
  | categoria (category : Category) (children : List SectionChild)
deriving Repr, DecidableEq

/-- The function `createWordDocument`, returning the section list of the
`new Document({sections})` call.  Reading `event.fotos.length` (inside
`downloadAllImages` and the cover) throws a `TypeError` when `fotos` is
absent, modelled by `none`; the `event.categorias && length > 0` guard
makes a missing `categorias` array contribute no sections. -/
def createWordDocument (event : Event) (fetch : Photo → Option ImageBuffer) :
    Option (List DocSection) :=
  match event.fotos with
  | none => none
  | some fotos =>
      let imageBuffers := downloadAllImages fetch fotos
      let coverSection := DocSection.cover event.nombre event.responsableNombre
        fotos.length
      let categorySections := (event.categorias.getD []).filterMap
        (fun category =>
          let categoryPhotos := filterPhotosByCategory fotos category.id
          if categoryPhotos.length > 0 then
            some (DocSection.categoria category
              (createCategorySection category categoryPhotos imageBuffers))
          else none)
      some (coverSection :: categorySections)

/-- The function `generateWordReport`.  The awaited `getEventById(eventId)`
result is the explicit `eventLookup` argument (`none` models the stored
document not existing); the docx library is assumed loaded, and
`Packer.toBlob` is the identity on the modelled section list.  The
`TypeError` branch is unreachable: the photo guard runs first. -/
def generateWordReport (eventLookup : Option Event)
    (fetch : Photo → Option ImageBuffer) : Except String (List DocSection) :=
  match eventLookup with
  | none => Except.error "Evento no encontrado"
  | some event =>
      if (event.fotos.getD []).isEmpty then
        Except.error "El evento no tiene fotos para generar reporte"
      else
        match createWordDocument event fetch with
        | some sections => Except.ok sections
        | none => Except.error "TypeError"

/-! ### UI state modules (src/js/events.js, src/unnamed/part_001) -/

/-- The slice of the module-level `formState` of events.js that category
editing touches. -/
structure FormState where
  mode : String
  currentEventId : Option String
  categorias : List Category
deriving Repr, DecidableEq

/-- The in-browser application state seen by the events form: the mutable
form state plus the persistent `eventos` document-store collection
(document id paired with document body). -/
structure AppState where
  formState : FormState
  storedEvents : List (String × Event)
deriving Repr, DecidableEq

/-- The handler `window.removeCategory` of events.js: replace
`formState.categorias` by `removeCategoryFromEvent(...)`; the only other
statements re-render DOM and log. -/
def removeCategory (s : AppState) (categoryId : String) : AppState :=
  { s with formState :=
      { s.formState with
          categorias := removeCategoryFromEvent s.formState.categorias categoryId } }

/-- The slice of `reportManagerState` that `window.generateReport` touches. -/
structure ReportManagerState where
  isGenerating : Bool
deriving Repr, DecidableEq

/-- Setting `reportManagerState.isGenerating = true` at the top of the
non-busy branch of `window.generateReport`. -/
def startGenerate (s : ReportManagerState) : ReportManagerState :=
  { s with isGenerating := true }

/-- The `finally` block of `window.generateReport`: clear `isGenerating`
(and restore the button) whether the `try` body completed or threw. -/
def finishGenerate (s : ReportManagerState) : ReportManagerState :=
  { s with isGenerating := false }

/-- The handler `window.generateReport` as a state transition.  When
`isGenerating` is already set it shows a toast and returns at once, having
performed nothing; otherwise the flag is raised, the report is generated
and emailed (`outcome` records whether that `try` body succeeded or threw
— the flag handling is identical either way), and the `finally` block
lowers the flag.  The returned boolean says whether the operation ran. -/
def generateReport (s : ReportManagerState) (outcome : Bool) :
    ReportManagerState × Bool :=
  if s.isGenerating then (s, false)
  else
    let _ := outcome
    (finishGenerate (startGenerate s), true)

/-- The slice of `photoManagerState` that `processAndAddPhoto` touches. -/
structure PhotoManagerState where
  isUploading : Bool
  photos : List Photo
deriving Repr, DecidableEq

/-- Setting `photoManagerState.isUploading = true` at the top of the
non-busy branch of `processAndAddPhoto`. -/
def startUpload (s : PhotoManagerState) : PhotoManagerState :=
  { s with isUploading := true }

/-- The function `processAndAddPhoto` as a state transition.  `newPhotos`
is the awaited `processMultipleFiles` result and `saveOutcome` records
whether `savePhotosToEvent` succeeded (its failure is caught; the photos
already appended stay in the state and the `finally` block still clears
the flag).  When nothing uploaded, the early return clears the flag by an
explicit assignment.  The returned boolean says whether the upload ran. -/
def processAndAddPhoto (s : PhotoManagerState) (newPhotos : List Photo)
    (saveOutcome : Bool) : PhotoManagerState × Bool :=
  if s.isUploading then (s, false)
  else
    let running := startUpload s
    if newPhotos.isEmpty then
      ({ running with isUploading := false }, true)
    else
      let _ := saveOutcome
      ({ running with photos := running.photos ++ newPhotos,
                      isUploading := false }, true)

/-! ### Spec-side definitions -/

/-- Modelled from the spec: the object-storage path convention
`eventos/{eventId}/{photoId}.jpg` stated in the external-interfaces
section, written independently of the source for comparison in claim C8. -/
def specStoragePath (eventId photoId : String) : String :=
  "eventos/" ++ eventId ++ "/" ++ photoId ++ ".jpg"

/-! ### Observation helpers for the report tree -/

/-- The photo id shown by a cell, if the cell holds an image. -/
def cellImageId : Cell → Option String
  | Cell.image photoId => some photoId
  | Cell.emptyCell => none

/-- The photo ids of the images appearing in one section child. -/
def childImageIds : SectionChild → List String
  | SectionChild.photoTable cells => cells.filterMap cellImageId
  | SectionChild.title _ => []
  | SectionChild.spacer => []

/-- The photo ids of all images of a category section, in document order. -/
def sectionImageIds (children : List SectionChild) : List String :=
  children.flatMap childImageIds

/-- The photo list a grid row of `photoRows` covers, in order. -/
def rowPhotos (row : Photo × Option Photo × Option Photo) : List Photo :=
  row.1 :: (row.2.1.toList ++ row.2.2.toList)

/-! ### Colour-index iteration -/

/-- The function `resetColorIndex`: the value it stores into the mutable
`colorIndex`. -/
def resetColorIndex : Nat := 0

/-- The `colorIndex` after `n` custom category creations since the last
`resetColorIndex`, obtained by iterating the index update of
`getNextColor`. -/
def colorIndexAfter : Nat → Nat
  | 0 => resetColorIndex
  | n + 1 => (getNextColor (colorIndexAfter n)).2

/-! ### Concrete sample data used by the witnesses -/

/-- Sample category with id `a`. -/
def catA : Category := ⟨"a", "Alfa", "#0ea5e9", none, true⟩

/-- Sample category with id `b`; no sample photo refers to it. -/
def catB : Category := ⟨"b", "Beta", "#22c55e", none, true⟩

/-- Sample photo attached to category `a`. -/
def photoA1 : Photo :=
  ⟨"p1", "a", "f1.jpg", 10, "image/jpeg", "http://u/1", "eventos/e1/p1.jpg"⟩

/-- Sample event with one photo and one photo-less category. -/
def sampleEvent : Event := ⟨"e1", "Evento", "Resp", some [catA, catB], some [photoA1]⟩

/-- Sample event whose stored document lacks the `fotos` array. -/
def sampleEventNoPhotos : Event := ⟨"e2", "Vacio", "Resp", some [], none⟩

/-! ## Theorems -/

/-- Claim C10: `removeCategoryFromEvent` is pure on the category list (its
input is never mutated — a Lean function cannot mutate its argument, and
the source builds a fresh array with `filter`); the result holds exactly
the categories whose id differs from the removed one, their relative order
is preserved (the result is a sublist of the input), removing an absent id
is the identity, and the removal is idempotent. -/
theorem removeCategoryFromEvent_algebra (categories : List Category)
    (categoryId : String) :
    (∀ cat, cat ∈ removeCategoryFromEvent categories categoryId ↔
        cat ∈ categories ∧ cat.id ≠ categoryId)
    ∧ (removeCategoryFromEvent categories categoryId).Sublist categories
    ∧ ((∀ cat ∈ categories, cat.id ≠ categoryId) →
        removeCategoryFromEvent categories categoryId = categories)
    ∧ removeCategoryFromEvent (removeCategoryFromEvent categories categoryId)
        categoryId = removeCategoryFromEvent categories categoryId := by
  refine ⟨?_, ?_, ?_, ?_⟩
  · intro cat
    simp [removeCategoryFromEvent, List.mem_filter]
  · exact List.filter_sublist categories
  · intro h
    simp only [removeCategoryFromEvent, List.filter_eq_self]
    intro cat hmem
    simpa using h cat hmem
  · simp [removeCategoryFromEvent, List.filter_filter]

/-- Witness for C10 at a concrete list: removing an id that no category
bears returns the list unchanged. -/
theorem removeCategoryFromEvent_algebra_witness :
    removeCategoryFromEvent [catA, catB] "zz" = [catA, catB] :=
  (removeCategoryFromEvent_algebra [catA, catB] "zz").2.2.1 (by decide)

/-- Claim C4: the handler `window.removeCategory` only swaps the in-memory
`formState.categorias` for the filtered copy; the persisted event store and
the other form-state fields are untouched, and every category of the given
id is gone from the new list. -/
theorem removeCategory_frame (s : AppState) (categoryId : String) :
    (removeCategory s categoryId).storedEvents = s.storedEvents
    ∧ (removeCategory s categoryId).formState.mode = s.formState.mode
    ∧ (removeCategory s categoryId).formState.currentEventId
        = s.formState.currentEventId
    ∧ (removeCategory s categoryId).formState.categorias
        = removeCategoryFromEvent s.formState.categorias categoryId
    ∧ ((removeCategory s categoryId).formState.categorias.all
        (fun cat => cat.id != categoryId)) = true := by
  refine ⟨rfl, rfl, rfl, rfl, ?_⟩
  simp [removeCategory, removeCategoryFromEvent, List.all_eq_true,
    List.mem_filter]

/-- Any instance of `validateCategoryNameWithMax` declares the name
invalid exactly on the four documented conditions. -/
theorem validateCategoryNameWithMax_invalid_iff (maxLen : Nat)
    (maxLenError : String) (nombre : String)
    (existingCategories : List Category) :
    (validateCategoryNameWithMax maxLen maxLenError nombre
        existingCategories).valid = false ↔
      jsTrim nombre = "" ∨ jsLength (jsTrim nombre) < 2 ∨
      maxLen < jsLength (jsTrim nombre) ∨
      ∃ cat ∈ existingCategories,
        jsToLower cat.nombre = jsToLower (jsTrim nombre) := by
  unfold validateCategoryNameWithMax
  split_ifs with h1 h2 h3 h4 <;>
    simp_all [List.any_eq_true]

/-- Claim C3: both source revisions of `validateCategoryName` reject a
proposed name exactly when the trimmed name is empty, shorter than 2
characters, longer than the revision's maximum (50 and 30 respectively),
or equal up to letter case to an existing category name; every name
passing all four checks is accepted. -/
theorem validateCategoryName_invalid_iff (nombre : String)
    (existingCategories : List Category) :
    ((validateCategoryName nombre existingCategories).valid = false ↔
      jsTrim nombre = "" ∨ jsLength (jsTrim nombre) < 2 ∨
      50 < jsLength (jsTrim nombre) ∨
      ∃ cat ∈ existingCategories,
        jsToLower cat.nombre = jsToLower (jsTrim nombre))
    ∧ ((validateCategoryNameLegacy nombre existingCategories).valid = false ↔
      jsTrim nombre = "" ∨ jsLength (jsTrim nombre) < 2 ∨
      30 < jsLength (jsTrim nombre) ∨
      ∃ cat ∈ existingCategories,
        jsToLower cat.nombre = jsToLower (jsTrim nombre)) :=
  ⟨validateCategoryNameWithMax_invalid_iff 50 _ nombre existingCategories,
   validateCategoryNameWithMax_invalid_iff 30 _ nombre existingCategories⟩

/-- Claim C7: the `isGenerating` and `isUploading` flags are re-entrancy
guards.  A call arriving while the flag is set returns at once with the
state unchanged and the operation not performed; in particular the state
reached right after a free call raises its flag rejects a nested call.
Whether the guarded body completes or throws, the flag is back to false
afterwards, so the next invocation performs the operation again. -/
theorem reentrancy_guard :
    (∀ (s : ReportManagerState) (outcome : Bool), s.isGenerating = true →
        generateReport s outcome = (s, false))
    ∧ (∀ (s : ReportManagerState) (outcome outcome' : Bool),
        s.isGenerating = false →
        (startGenerate s).isGenerating = true
        ∧ generateReport (startGenerate s) outcome' = (startGenerate s, false)
        ∧ (generateReport s outcome).2 = true
        ∧ ((generateReport s outcome).1).isGenerating = false
        ∧ (generateReport (generateReport s outcome).1 outcome').2 = true)
    ∧ (∀ (s : PhotoManagerState) (newPhotos : List Photo) (saveOutcome : Bool),
        s.isUploading = true →
        processAndAddPhoto s newPhotos saveOutcome = (s, false))
    ∧ (∀ (s : PhotoManagerState) (newPhotos newPhotos' : List Photo)
        (saveOutcome saveOutcome' : Bool), s.isUploading = false →
        (startUpload s).isUploading = true
        ∧ processAndAddPhoto (startUpload s) newPhotos' saveOutcome'
            = (startUpload s, false)
        ∧ (processAndAddPhoto s newPhotos saveOutcome).2 = true
        ∧ ((processAndAddPhoto s newPhotos saveOutcome).1).isUploading = false
        ∧ (processAndAddPhoto (processAndAddPhoto s newPhotos saveOutcome).1
            newPhotos' saveOutcome').2 = true) := by
  refine ⟨?_, ?_, ?_, ?_⟩
  · intro s outcome h
    simp [generateReport, h]
  · intro s outcome outcome' h
    refine ⟨rfl, ?_, ?_, ?_, ?_⟩ <;>
      simp [generateReport, startGenerate, finishGenerate, h]
  · intro s newPhotos saveOutcome h
    simp [processAndAddPhoto, h]
  · intro s newPhotos newPhotos' saveOutcome saveOutcome' h
    refine ⟨rfl, ?_, ?_, ?_, ?_⟩ <;>
      by_cases he : newPhotos.isEmpty <;>
        by_cases he' : newPhotos'.isEmpty <;>
          simp [processAndAddPhoto, startUpload, h, he, he']

/-- Witness for C7 at concrete states: a busy report manager rejects the
call, and a free photo manager performs the upload. -/
theorem reentrancy_guard_witness :
    generateReport ⟨true⟩ true = (⟨true⟩, false)
    ∧ (processAndAddPhoto ⟨false, []⟩ [photoA1] true).2 = true :=
  ⟨reentrancy_guard.1 ⟨true⟩ true rfl,
   (reentrancy_guard.2.2.2 ⟨false, []⟩ [photoA1] [] true true rfl).2.2.1⟩

/-- Claim C8: the storage reference handed to the upload call is built
from exactly the path `eventos/{eventId}/{photoId}.jpg` of the spec's
convention, and the `storagePath` recorded on a successfully created photo
object equals that same path. -/
theorem storagePath_convention :
    (∀ (backend : StorageBackend) (file : WebFile) (eventId photoId : String),
        uploadPhotoToStorage backend file eventId photoId
          = match backend.upload (specStoragePath eventId photoId) file with
            | some downloadURL => Except.ok downloadURL
            | none => Except.error "Error al subir foto a Storage")
    ∧ (∀ (backend : StorageBackend) (compress : WebFile → WebFile)
        (photoId : String) (file : WebFile) (categoryId eventId : String)
        (photo : Photo),
        createPhotoObject backend compress photoId file categoryId eventId
          = some photo →
        photo.storagePath = specStoragePath eventId photoId) := by
  constructor
  · intro backend file eventId photoId
    have hpath : "eventos/" ++ eventId ++ "/" ++ (photoId ++ ".jpg")
        = specStoragePath eventId photoId := by
      simp [specStoragePath, String.append_assoc]
    simp only [uploadPhotoToStorage, hpath]
  · intro backend compress photoId file categoryId eventId photo h
    cases hup : uploadPhotoToStorage backend (compress file) eventId photoId with
    | error e => simp [createPhotoObject, hup] at h
    | ok downloadURL =>
        simp only [createPhotoObject, hup] at h
        cases h
        rfl

/-- Witness for C8: a concrete upload records the convention path. -/
theorem storagePath_convention_witness :
    ∃ photo : Photo,
      createPhotoObject ⟨fun _ _ => some "http://u/1"⟩ id "p9" ⟨"a.png", 3, "image/png"⟩
        "cat" "E1" = some photo
      ∧ photo.storagePath = specStoragePath "E1" "p9" := by
  refine ⟨{ id := "p9", categoryId := "cat", fileName := "a.png", fileSize := 3,
            fileType := "image/png", url := "http://u/1",
            storagePath := "eventos/E1/p9.jpg" }, by decide, ?_⟩
  exact storagePath_convention.2 ⟨fun _ _ => some "http://u/1"⟩ id "p9"
    ⟨"a.png", 3, "image/png"⟩ "cat" "E1" _ (by decide)

/-- Claim C5: `processMultipleFiles` returns exactly the photo objects of
the image files whose upload succeeded, in input order (the `filterMap`
characterisation), and processing splits over list concatenation, so a
failing file neither discards the photos already collected nor stops the
later files; `downloadAllImages` likewise keeps exactly the buffers of the
photos whose fetch succeeded, keyed by photo id, in order. -/
theorem processMultipleFiles_skips_failures :
    (∀ (backend : StorageBackend) (compress : WebFile → WebFile)
        (genId : WebFile → String) (categoryId eventId : String)
        (files : List WebFile),
        processMultipleFiles backend compress genId categoryId eventId files
          = files.filterMap (fun file =>
              if jsStartsWith file.type "image/" then
                createPhotoObject backend compress (genId file) file categoryId
                  eventId
              else none))
    ∧ (∀ (backend : StorageBackend) (compress : WebFile → WebFile)
        (genId : WebFile → String) (categoryId eventId : String)
        (files moreFiles : List WebFile),
        processMultipleFiles backend compress genId categoryId eventId
            (files ++ moreFiles)
          = processMultipleFiles backend compress genId categoryId eventId files
            ++ processMultipleFiles backend compress genId categoryId eventId
              moreFiles)
    ∧ (∀ (fetch : Photo → Option ImageBuffer) (photos : List Photo),
        downloadAllImages fetch photos
          = photos.filterMap
              (fun photo => (fetch photo).map (fun buffer => (photo.id, buffer)))) := by
  have hchar : ∀ (backend : StorageBackend) (compress : WebFile → WebFile)
      (genId : WebFile → String) (categoryId eventId : String)
      (files : List WebFile),
      processMultipleFiles backend compress genId categoryId eventId files
        = files.filterMap (fun file =>
            if jsStartsWith file.type "image/" then
              createPhotoObject backend compress (genId file) file categoryId
                eventId
            else none) := by
    intro backend compress genId categoryId eventId files
    induction files with
    | nil => rfl
    | cons file rest ih =>
        by_cases himg : jsStartsWith file.type "image/"
        · cases hobj : createPhotoObject backend compress (genId file) file
              categoryId eventId <;>
            simp [processMultipleFiles, List.filterMap_cons, himg, hobj, ih]
        · simp [processMultipleFiles, List.filterMap_cons, himg, ih]
  refine ⟨hchar, ?_, ?_⟩
  · intro backend compress genId categoryId eventId files moreFiles
    simp [hchar, List.filterMap_append]
  · intro fetch photos
    induction photos with
    | nil => rfl
    | cons photo rest ih =>
        cases hf : fetch photo <;>
          simp [downloadAllImages, List.filterMap_cons, hf, ih]

/-- Iterating the index update of `getNextColor` from `resetColorIndex`
walks the palette round-robin. -/
theorem colorIndexAfter_mod (n : Nat) : colorIndexAfter n = n % 8 := by
  induction n with
  | zero => rfl
  | succ n ih =>
      show (getNextColor (colorIndexAfter n)).2 = (n + 1) % 8
      rw [ih]
      show (n % 8 + 1) % ADDITIONAL_COLORS.length = (n + 1) % 8
      have hlen : ADDITIONAL_COLORS.length = 8 := rfl
      rw [hlen]
      omega

/-- Claim C6: a successfully created category carries the supplied id, the
trimmed name, and a colour; with an explicit colour the custom flag is
false and the colour index is untouched, while without one the colour
comes from the round-robin palette and the flag is true.  A catalogue
creation copies the entry's colour and icon with the flag false.  The
`n`-th custom creation after `resetColorIndex` (counting from zero) reads
palette entry `n mod 8`, carries no icon, and leaves the index at
`(n + 1) mod 8`. -/
theorem createCategory_palette :
    (∀ (newId nombre : String) (color icon : Option String) (i : Nat)
        (cat : Category) (i' : Nat),
        createCategory newId nombre color icon i = Except.ok (cat, i') →
        cat.id = newId ∧ cat.nombre = jsTrim nombre ∧ jsTrim nombre ≠ ""
        ∧ cat.isCustom = color.isNone
        ∧ (∀ c, color = some c → cat.color = c ∧ cat.icon = icon ∧ i' = i)
        ∧ (color = none → cat.color = ADDITIONAL_COLORS.getD i ""
            ∧ cat.icon = icon ∧ i' = (i + 1) % 8))
    ∧ (∀ (newId nombre : String) (i : Nat) (entry : CatalogCategory),
        CATALOG_CATEGORIES.find? (fun cat => cat.nombre == nombre)
            = some entry →
        createCategoryFromCatalog newId nombre i
          = Except.ok ({ id := newId, nombre := jsTrim entry.nombre,
                         color := entry.color, icon := some entry.icon,
                         isCustom := false }, i))
    ∧ (∀ n : Nat, colorIndexAfter n = n % 8)
    ∧ ADDITIONAL_COLORS.length = 8
    ∧ (∀ (newId nombre : String) (n : Nat), jsTrim nombre ≠ "" →
        createCategory newId nombre none none (colorIndexAfter n)
          = Except.ok ({ id := newId, nombre := jsTrim nombre,
                         color := ADDITIONAL_COLORS.getD (n % 8) "",
                         icon := none, isCustom := true }, (n + 1) % 8)) := by
  refine ⟨?_, ?_, colorIndexAfter_mod, rfl, ?_⟩
  · intro newId nombre color icon i cat i' h
    by_cases hne : jsTrim nombre = ""
    · simp [createCategory, hne] at h
    · cases color with
      | none =>
          simp only [createCategory, beq_iff_eq, if_neg hne, getNextColor] at h
          cases h
          refine ⟨rfl, rfl, hne, rfl, ?_, ?_⟩
          · intro c hc
            cases hc
          · intro _
            exact ⟨rfl, rfl, by simp [ADDITIONAL_COLORS]⟩
      | some c =>
          simp only [createCategory, beq_iff_eq, if_neg hne] at h
          cases h
          refine ⟨rfl, rfl, hne, rfl, ?_, ?_⟩
          · intro c' hc
            cases hc
            exact ⟨rfl, rfl, rfl⟩
          · intro hc
            cases hc
  · intro newId nombre i entry hfind
    have hmem : entry ∈ CATALOG_CATEGORIES := List.mem_of_find?_eq_some hfind
    have hne : ∀ c ∈ CATALOG_CATEGORIES, ¬jsTrim c.nombre = "" := by decide
    simp [createCategoryFromCatalog, hfind, createCategory, hne entry hmem]
  · intro newId nombre n hne
    simp only [createCategory, beq_iff_eq, if_neg hne, getNextColor,
      colorIndexAfter_mod]
    have hlen : ADDITIONAL_COLORS.length = 8 := rfl
    rw [hlen]
    have hmod : (n % 8 + 1) % 8 = (n + 1) % 8 := by omega
    rw [hmod]

/-- Witness for C6: with the index reset, the tenth custom creation (index
`n = 9`) wraps around to palette entry 1, and a catalogue creation copies
the catalogue colour and icon. -/
theorem createCategory_palette_witness :
    createCategory "x" " Foo " none none (colorIndexAfter 9)
      = Except.ok (⟨"x", "Foo", "#22c55e", none, true⟩, 2)
    ∧ createCategoryFromCatalog "y" "A&B" 5
      = Except.ok (⟨"y", "A&B", "#f59e0b", some "🍽️", false⟩, 5) := by
  constructor
  · exact (createCategory_palette.2.2.2.2 "x" " Foo " 9 (by decide)).trans rfl
  · exact (createCategory_palette.2.1 "y" "A&B" 5 ⟨"A&B", "#f59e0b", "🍽️"⟩
      (by decide)).trans rfl

/-- The `k`-th triple visited by the stride-3 loop consists of the photos
at indices `3k`, `3k + 1`, `3k + 2` of the input, when present. -/
theorem photoRows_get?_eq : ∀ (l : List Photo) (k : Nat),
    (photoRows l).get? k
      = (l.get? (3 * k)).map
          (fun a => (a, l.get? (3 * k + 1), l.get? (3 * k + 2)))
  | [], _ => rfl
  | [_], 0 => rfl
  | [_], (_ + 1) => rfl
  | [_, _], 0 => rfl
  | [_, _], (_ + 1) => rfl
  | (_ :: _ :: _ :: _), 0 => rfl
  | (_ :: _ :: _ :: rest), (k + 1) => photoRows_get?_eq rest k

/-- The image cells of one grid row are exactly the photos of the triple
that appear in the downloaded-image map, in order. -/
theorem rowCells_imageIds (imageBuffers : List (String × ImageBuffer))
    (p1 : Photo) (p2 p3 : Option Photo) :
    (rowCells imageBuffers p1 p2 p3).filterMap cellImageId
      = ((p1 :: (p2.toList ++ p3.toList)).filter
          (fun p => mapHas imageBuffers p.id)).map Photo.id := by
  rcases p2 with _ | q2 <;> rcases p3 with _ | q3 <;>
    cases h1 : mapHas imageBuffers p1.id <;>
    first
    | (cases h2 : mapHas imageBuffers q2.id <;>
        cases h3 : mapHas imageBuffers q3.id <;>
        simp [rowCells, cellImageId, List.filterMap_append, List.filter_cons,
          h1, h2, h3])
    | (cases h2 : mapHas imageBuffers q2.id <;>
        simp [rowCells, cellImageId, List.filterMap_append, List.filter_cons,
          h1, h2])
    | (cases h3 : mapHas imageBuffers q3.id <;>
        simp [rowCells, cellImageId, List.filterMap_append, List.filter_cons,
          h1, h3])
    | simp [rowCells, cellImageId, List.filterMap_append, List.filter_cons, h1]

/-- Flattening the stride-3 triples recovers the photo list. -/
theorem photoRows_flatten : ∀ l : List Photo,
    (photoRows l).flatMap rowPhotos = l
  | [] => rfl
  | [_] => rfl
  | [_, _] => rfl
  | (a :: b :: c :: rest) => by
      show rowPhotos (a, some b, some c) ++ (photoRows rest).flatMap rowPhotos
        = a :: b :: c :: rest
      rw [photoRows_flatten rest]
      rfl

/-- Claim C2: `createCategorySection` tiles the photos into rows by a
fixed stride of 3 in their original order — the `k`-th row is built from
the photos at indices `3k`, `3k + 1` and `3k + 2` when present — and the
image cells of the section are exactly the photos whose id has an entry in
the downloaded-image map, in order: a photo whose download failed
contributes no image cell. -/
theorem createCategorySection_grid (category : Category) (photos : List Photo)
    (imageBuffers : List (String × ImageBuffer)) :
    (∀ k : Nat, (photoRows photos).get? k
        = (photos.get? (3 * k)).map
            (fun a => (a, photos.get? (3 * k + 1), photos.get? (3 * k + 2))))
    ∧ createCategorySection category photos imageBuffers
        = SectionChild.title (jsToUpper category.nombre) ::
            (photoRows photos).flatMap (fun row =>
              [SectionChild.photoTable
                  (rowCells imageBuffers row.1 row.2.1 row.2.2),
               SectionChild.spacer])
    ∧ sectionImageIds (createCategorySection category photos imageBuffers)
        = (photos.filter (fun photo => mapHas imageBuffers photo.id)).map
            Photo.id := by
  refine ⟨photoRows_get?_eq photos, rfl, ?_⟩
  show sectionImageIds (SectionChild.title (jsToUpper category.nombre) ::
      (photoRows photos).flatMap (fun row =>
        [SectionChild.photoTable
            (rowCells imageBuffers row.1 row.2.1 row.2.2),
         SectionChild.spacer])) = _
  rw [sectionImageIds, List.flatMap_cons, List.flatMap_assoc]
  have hrow : ∀ row : Photo × Option Photo × Option Photo,
      ([SectionChild.photoTable
          (rowCells imageBuffers row.1 row.2.1 row.2.2),
        SectionChild.spacer] : List SectionChild).flatMap childImageIds
        = ((rowPhotos row).filter
            (fun p => mapHas imageBuffers p.id)).map Photo.id := by
    intro row
    simp [childImageIds, rowCells_imageIds, rowPhotos]
  simp only [hrow, childImageIds, List.nil_append]
  rw [← List.map_flatMap, ← List.filter_flatMap, photoRows_flatten]

/-- A `filterMap` whose function keeps `f a` under a decidable condition
is the `map` of `f` over the `filter` of that condition. -/
theorem filterMap_ite_eq_map_filter {α β : Type} (p : α → Prop)
    [DecidablePred p] (f : α → β) (l : List α) :
    (l.filterMap fun a => if p a then some (f a) else none)
      = (l.filter fun a => decide (p a)).map f := by
  induction l with
  | nil => rfl
  | cons a t ih =>
      by_cases h : p a <;>
        simp [List.filterMap_cons, List.filter_cons, h, ih]

/-- Claim C1: for an event whose stored document carries a non-empty photo
array, `createWordDocument` is defined (no step of the construction can
throw) for every download outcome — including the one where every fetch
fails and `imageBuffers` stays empty — and the section list is exactly the
cover section followed by one category section per category that has at
least one photo; categories with zero photos contribute nothing. -/
theorem createWordDocument_total (event : Event) (fotos : List Photo)
    (fetch : Photo → Option ImageBuffer) (hfotos : event.fotos = some fotos)
    (hne : fotos ≠ []) :
    createWordDocument event fetch
      = some (DocSection.cover event.nombre event.responsableNombre
            fotos.length ::
          ((event.categorias.getD []).filter (fun category =>
              decide (0 < (filterPhotosByCategory fotos category.id).length))).map
            (fun category => DocSection.categoria category
              (createCategorySection category
                (filterPhotosByCategory fotos category.id)
                (downloadAllImages fetch fotos))))
    ∧ ∀ sections, createWordDocument event fetch = some sections →
        sections.length
          = 1 + ((event.categorias.getD []).filter (fun category =>
              decide (0 < (filterPhotosByCategory fotos category.id).length))).length := by
  have h1 : createWordDocument event fetch
      = some (DocSection.cover event.nombre event.responsableNombre
            fotos.length ::
          ((event.categorias.getD []).filter (fun category =>
              decide (0 < (filterPhotosByCategory fotos category.id).length))).map
            (fun category => DocSection.categoria category
              (createCategorySection category
                (filterPhotosByCategory fotos category.id)
                (downloadAllImages fetch fotos)))) := by
    simp only [createWordDocument, hfotos]
    rw [filterMap_ite_eq_map_filter
      (fun category => 0 < (filterPhotosByCategory fotos category.id).length)
      (fun category => DocSection.categoria category
        (createCategorySection category
          (filterPhotosByCategory fotos category.id)
          (downloadAllImages fetch fotos)))]
  refine ⟨h1, ?_⟩
  intro sections hs
  rw [h1] at hs
  cases hs
  simp [Nat.add_comm]

/-- Witness for C1: on the sample event — one category with a photo, one
with none — with every download failing, the document has exactly the
cover plus the one populated category section, whose only row holds two
empty filler cells and no image. -/
theorem createWordDocument_total_witness :
    createWordDocument sampleEvent (fun _ => none)
      = some [DocSection.cover "Evento" "Resp" 1,
          DocSection.categoria catA
            [SectionChild.title "ALFA",
             SectionChild.photoTable [Cell.emptyCell, Cell.emptyCell],
             SectionChild.spacer]] :=
  ((createWordDocument_total sampleEvent [photoA1] (fun _ => none) rfl
    (by decide)).1).trans (by decide)

/-- Claim C9: `generateWordReport` rejects exactly when the looked-up
event is absent or its photo array is missing or empty; in those cases the
result does not depend on the image downloads at all (none is attempted),
and for an existing event with a non-empty photo array it returns the
built document. -/
theorem generateWordReport_guards (fetch fetch' : Photo → Option ImageBuffer) :
    generateWordReport none fetch = Except.error "Evento no encontrado"
    ∧ (∀ eventLookup : Option Event,
        (∃ msg, generateWordReport eventLookup fetch = Except.error msg) ↔
          (eventLookup = none
            ∨ ∃ event, eventLookup = some event
                ∧ (event.fotos.getD []).isEmpty = true))
    ∧ (∀ eventLookup : Option Event,
        (∃ msg, generateWordReport eventLookup fetch = Except.error msg) →
        generateWordReport eventLookup fetch
          = generateWordReport eventLookup fetch')
    ∧ (∀ (event : Event) (fotos : List Photo), event.fotos = some fotos →
        fotos ≠ [] →
        ∃ sections, createWordDocument event fetch = some sections
          ∧ generateWordReport (some event) fetch = Except.ok sections) := by
  have hcw : ∀ (event : Event) (fotos : List Photo) (f : Photo → Option ImageBuffer),
      event.fotos = some fotos →
      createWordDocument event f
        = some (DocSection.cover event.nombre event.responsableNombre
              fotos.length ::
            (event.categorias.getD []).filterMap (fun category =>
              if 0 < (filterPhotosByCategory fotos category.id).length then
                some (DocSection.categoria category
                  (createCategorySection category
                    (filterPhotosByCategory fotos category.id)
                    (downloadAllImages f fotos)))
              else none)) := by
    intro event fotos f hf
    simp only [createWordDocument, hf]
  refine ⟨rfl, ?_, ?_, ?_⟩
  · intro eventLookup
    cases eventLookup with
    | none => exact ⟨fun _ => Or.inl rfl, fun _ => ⟨"Evento no encontrado", rfl⟩⟩
    | some event =>
        cases hEmpty : (event.fotos.getD []).isEmpty with
        | true =>
            refine ⟨fun _ => Or.inr ⟨event, rfl, hEmpty⟩, fun _ => ?_⟩
            exact ⟨"El evento no tiene fotos para generar reporte",
              by simp [generateWordReport, hEmpty]⟩
        | false =>
            constructor
            · rintro ⟨msg, hmsg⟩
              obtain ⟨fotos, hf⟩ : ∃ fotos, event.fotos = some fotos := by
                cases hfo : event.fotos with
                | none => simp [hfo] at hEmpty
                | some l => exact ⟨l, rfl⟩
              rw [generateWordReport] at hmsg
              simp only [hEmpty, Bool.false_eq_true, if_neg] at hmsg
              rw [hcw event fotos fetch hf] at hmsg
              simp at hmsg
            · rintro (h | ⟨event', heq, hEmpty'⟩)
              · exact absurd h (by simp)
              · cases heq
                rw [hEmpty'] at hEmpty
                cases hEmpty
  · intro eventLookup herr
    cases eventLookup with
    | none => rfl
    | some event =>
        cases hEmpty : (event.fotos.getD []).isEmpty with
        | true => simp [generateWordReport, hEmpty]
        | false =>
            exfalso
            obtain ⟨msg, hmsg⟩ := herr
            obtain ⟨fotos, hf⟩ : ∃ fotos, event.fotos = some fotos := by
              cases hfo : event.fotos with
              | none => simp [hfo] at hEmpty
              | some l => exact ⟨l, rfl⟩
            rw [generateWordReport] at hmsg
            simp only [hEmpty, Bool.false_eq_true, if_neg] at hmsg
            rw [hcw event fotos fetch hf] at hmsg
            simp at hmsg
  · intro event fotos hf hne
    have hEmpty : (event.fotos.getD []).isEmpty = false := by
      rw [hf]
      simpa [List.isEmpty_iff] using hne
    refine ⟨_, hcw event fotos fetch hf, ?_⟩
    rw [generateWordReport]
    simp only [hEmpty, Bool.false_eq_true, if_neg]
    rw [hcw event fotos fetch hf]
    simp

/-- Witness for C9: the no-photos sample event is rejected independently
of the network, and the populated sample event yields the document. -/
theorem generateWordReport_guards_witness :
    generateWordReport (some sampleEventNoPhotos) (fun _ => none)
      = generateWordReport (some sampleEventNoPhotos) (fun _ => some 0)
    ∧ ∃ sections, createWordDocument sampleEvent (fun _ => none) = some sections
        ∧ generateWordReport (some sampleEvent) (fun _ => none)
          = Except.ok sections :=
  ⟨(generateWordReport_guards (fun _ => none) (fun _ => some 0)).2.2.1
      (some sampleEventNoPhotos)
      ⟨"El evento no tiene fotos para generar reporte", rfl⟩,
   (generateWordReport_guards (fun _ => none) (fun _ => none)).2.2.2
      sampleEvent [photoA1] rfl (by decide)⟩
